import Mathlib

/-!
Verification development for a small home-nursing-service booking API.

The embedding models, as pure Lean functions over an explicit document
store, the behaviour of:
* the bearer-token auth middleware (`authenticateToken` in middleware/auth);
* the patients router (`GET /patients`, `POST /patients`);
* the service-requests router (`POST /`, `GET /`, `PUT /:id`, `GET /:id`);
* the `ServiceRequest` Mongoose schema defaults.

Mongo queries become list filters over the store; `findOneAndUpdate`
becomes a first-match functional update; HTTP status codes become
constructors of explicit result types.
-/

namespace NursingAPI

/-- Patient document. The Patient schema file is not among the reviewed
sources; its fields follow the data model of the spec and the field names used
by the routes (name, fecha_nacimiento, genero, descripcion, usuario_id),
plus the store identifier `_id` that the routes strip from responses. -/
structure Patient where
  _id : String
  name : String
  fecha_nacimiento : String
  genero : String
  descripcion : String
  usuario_id : String
  deriving DecidableEq, Repr

/-- ServiceRequest document, after the `ServiceRequestSchema` of
models/ServiceRequest.js (the schema lists `estado` and `pago_realizado`
twice with identical defaults; the duplicates collapse). Optional schema
fields are `Option`. -/
structure ServiceRequest where
  _id : String
  user_id : String
  nurse_id : String
  patient_ids : List String
  estado : String
  detalles : Option String
  fecha : String
  tarifa : Int
  pago_realizado : Bool
  pago_liberado : Bool
  documentacion_servicio : Option String
  observaciones : Option String
  recomendaciones : Option String
  deriving DecidableEq, Repr

/-- The document store: the Patient and ServiceRequest collections. -/
structure Store where
  patients : List Patient
  requests : List ServiceRequest
  deriving DecidableEq, Repr

/-! ## Auth middleware (middleware/auth: authenticateToken) -/

/-- Outcome of the auth gate: 401 (no token), 403 (verification failed),
or success with the decoded user id attached to the request. -/
inductive AuthResult where
  | unauthorized : AuthResult
  | forbidden : AuthResult
  | ok (userId : String) : AuthResult
  deriving DecidableEq, Repr

/-- JS single-character split, as `str.split(" ")`: separators are not
collapsed, and the empty string yields one empty piece. -/
def splitOnChar (c : Char) : List Char → List (List Char)
  | [] => [[]]
  | x :: xs =>
    if x = c then
      [] :: splitOnChar c xs
    else
      match splitOnChar c xs with
      | [] => [[x]]
      | w :: ws => (x :: w) :: ws

/-- Extracts the bearer token from the Authorization header:
`req.headers.authorization && req.headers.authorization.split(" ")[1]`. -/
def tokenOf (header : Option String) : Option String :=
  header.bind (fun h => ((splitOnChar ' ' h.data).map String.mk).get? 1)

/-- The auth middleware. `verify` abstracts `jwt.verify`: `none` for an
invalid or expired token, `some userId` for a valid one. A missing (or
empty, hence JS-falsy) token short-circuits to 401 before verification. -/
def authenticateToken (verify : String → Option String) (header : Option String) : AuthResult :=
  match tokenOf header with
  | none => .unauthorized
  | some t =>
    if t = "" then .unauthorized
    else
      match verify t with
      | none => .forbidden
      | some userId => .ok userId

/-! ## Patients router (routes/patients.js) -/

/-- Patient record as serialized in responses: `toObject()` minus `_id`
(`const { _id, ...patientData } = patient.toObject()`). All remaining
fields, including `usuario_id`, stay. -/
structure PatientData where
  name : String
  fecha_nacimiento : String
  genero : String
  descripcion : String
  usuario_id : String
  deriving DecidableEq, Repr

/-- Drops `_id` from a patient document, keeping every other field. -/
def stripId (p : Patient) : PatientData :=
  { name := p.name
    fecha_nacimiento := p.fecha_nacimiento
    genero := p.genero
    descripcion := p.descripcion
    usuario_id := p.usuario_id }

/-- Response body of `GET /patients`. The echoed page and limit are the
caller-supplied, non-validated integers (`Number(page)`, `Number(limit)`). -/
structure PatientsListResponse where
  total : Nat
  page : Int
  limit : Int
  patients : List PatientData
  deriving DecidableEq, Repr

/-- Mongo cursor `.limit(n)`: `limit(0)` applies no limit at all, and a
non-zero n returns at most |n| documents (a negative limit returns a
single batch of that size). -/
def mongoLimit {α : Type} (n : Int) (l : List α) : List α :=
  if n = 0 then l else l.take n.natAbs

/-- `GET /patients`: count and page the patients of the caller
(`Patient.find({usuario_id: req.userId}).skip((page-1)*limit).limit(limit)`),
stripping `_id` from each returned record. `page` and `limit` default to
1 and 10 when absent from the query and are otherwise arbitrary integers;
a negative skip is rejected by Mongo, which the route surfaces as a 500
from its catch (`none` here), and `limit(0)` means no limit. -/
def listPatients (store : Store) (userId : String) (pageQ limitQ : Option Int) :
    Option PatientsListResponse :=
  let page := pageQ.getD 1
  let limit := limitQ.getD 10
  let skip := (page - 1) * limit
  if skip < 0 then none
  else
    let owned := store.patients.filter (fun p => p.usuario_id == userId)
    some { total := owned.length
           page := page
           limit := limit
           patients := (mongoLimit limit (owned.drop skip.toNat)).map stripId }

/-- Client body of `POST /patients`. A client may also send an owner id
(`usuario_id`); the route overwrites it with the authenticated caller. -/
structure PatientBody where
  name : String
  fecha_nacimiento : String
  genero : String
  descripcion : String
  usuario_id : Option String
  deriving DecidableEq, Repr

/-- `POST /patients`: `new Patient({...req.body, usuario_id: req.userId})`,
save, respond 201 with the record minus `_id`. `freshId` stands for the
store-generated `_id`. -/
def createPatient (store : Store) (userId : String) (body : PatientBody) (freshId : String) :
    PatientData × Store :=
  let newPatient : Patient :=
    { _id := freshId
      name := body.name
      fecha_nacimiento := body.fecha_nacimiento
      genero := body.genero
      descripcion := body.descripcion
      usuario_id := userId }
  (stripId newPatient, { store with patients := store.patients ++ [newPatient] })

/-! ## Service-requests router: create (POST /) -/

/-- Client body of `POST /service-requests`. -/
structure CreateBody where
  nurse_id : String
  patient_ids : List String
  detalles : Option String
  fecha : String
  tarifa : Int
  deriving DecidableEq, Repr

/-- Outcome of `POST /service-requests`: 403 when the ownership check
fails, else 201 with the full created record. -/
inductive CreateResult where
  | forbidden : CreateResult
  | created (sr : ServiceRequest) : CreateResult
  deriving DecidableEq, Repr

/-- `Patient.find({ _id: { $in: patient_ids }, usuario_id: req.userId })`:
the store patients whose id occurs in the supplied list and whose owner is
the caller. -/
def validPatients (store : Store) (userId : String) (patient_ids : List String) :
    List Patient :=
  store.patients.filter (fun p => patient_ids.contains p._id && p.usuario_id == userId)

/-- `POST /service-requests`: if the matched-and-owned patient count
differs from the supplied id-list length, 403 and no write; otherwise
persist a new request (schema defaults: estado "pendiente", payment flags
false, documentation fields unset) and respond 201 with it. `freshId`
stands for the store-generated `_id`. -/
def createServiceRequest (store : Store) (userId : String) (body : CreateBody)
    (freshId : String) : CreateResult × Store :=
  if (validPatients store userId body.patient_ids).length = body.patient_ids.length then
    let newRequest : ServiceRequest :=
      { _id := freshId
        user_id := userId
        nurse_id := body.nurse_id
        patient_ids := body.patient_ids
        estado := "pendiente"
        detalles := body.detalles
        fecha := body.fecha
        tarifa := body.tarifa
        pago_realizado := false
        pago_liberado := false
        documentacion_servicio := none
        observaciones := none
        recomendaciones := none }
    (.created newRequest, { store with requests := store.requests ++ [newRequest] })
  else
    (.forbidden, store)

/-! ## Service-requests router: list (GET /) -/

/-- Fields selected by `.populate with select "name fecha_nacimiento genero descripcion"`. -/
structure PatientSummary where
  name : String
  fecha_nacimiento : String
  genero : String
  descripcion : String
  deriving DecidableEq, Repr

/-- Projection used by the populate step. -/
def patientSummary (p : Patient) : PatientSummary :=
  { name := p.name
    fecha_nacimiento := p.fecha_nacimiento
    genero := p.genero
    descripcion := p.descripcion }

/-- Read-time join: resolves each stored patient id to its selected
fields, skipping ids with no matching document. -/
def populatePatients (ps : List Patient) (ids : List String) : List PatientSummary :=
  ids.filterMap (fun i => (ps.find? (fun p => p._id == i)).map patientSummary)

/-- A service request as returned by the list and detail endpoints, with
its patient ids populated. -/
structure PopulatedRequest where
  request : ServiceRequest
  patients : List PatientSummary
  deriving DecidableEq, Repr

/-- Mongo filter of `GET /service-requests`:
`{$or: [{user_id: req.userId}, {nurse_id: req.userId}]}` plus, when the
`estado` query value is JS-truthy (present and non-empty), an exact-match
`estado` condition. -/
def requestFilter (userId : String) (estado : Option String) (r : ServiceRequest) : Bool :=
  (r.user_id == userId || r.nurse_id == userId) &&
    (match estado with
     | none => true
     | some s => if s = "" then true else r.estado == s)

/-- Response body of `GET /service-requests`. The echoed page and limit
are the caller-supplied, non-validated integers. -/
structure RequestsListResponse where
  total : Nat
  page : Int
  limit : Int
  requests : List PopulatedRequest
  deriving DecidableEq, Repr

/-- `GET /service-requests`: count all matches, page them with
`skip((page-1)*limit).limit(limit)` and populate each page entry.
`page` and `limit` default to 1 and 10 when absent from the query; as in
`listPatients`, a negative skip is a Mongo error surfaced as a 500
(`none`), and `limit(0)` means no limit. -/
def listRequests (store : Store) (userId : String) (estado : Option String)
    (pageQ limitQ : Option Int) : Option RequestsListResponse :=
  let page := pageQ.getD 1
  let limit := limitQ.getD 10
  let skip := (page - 1) * limit
  if skip < 0 then none
  else
    let matched := store.requests.filter (requestFilter userId estado)
    some { total := matched.length
           page := page
           limit := limit
           requests := (mongoLimit limit (matched.drop skip.toNat)).map
             (fun r => { request := r, patients := populatePatients store.patients r.patient_ids }) }

/-! ## Service-requests router: status update (PUT /:id) -/

/-- The four accepted status values:
the route guard list (pendiente, aceptada, rechazada, completada). -/
def statusValues : List String :=
  ["pendiente", "aceptada", "rechazada", "completada"]

/-- Outcome of `PUT /service-requests/:id`: 400 on a status outside the
enum, 404 when no record matches `(id, nurse_id == caller)`, else 200 with
a confirmation message and the updated record. -/
inductive UpdateResult where
  | invalidStatus : UpdateResult
  | notFound : UpdateResult
  | ok (message : String) (sr : ServiceRequest) : UpdateResult
  deriving DecidableEq, Repr

/-- Whether an update outcome is the 200 success. -/
def UpdateResult.isOk : UpdateResult → Bool
  | .ok _ _ => true
  | _ => false

/-- `ServiceRequest.findOneAndUpdate({_id: id, nurse_id: caller}, {estado}, {new: true})`:
updates the first document matching both keys, setting only `estado`, and
returns the updated document together with the updated collection; `none`
when nothing matches. -/
def findOneAndUpdateEstado (rs : List ServiceRequest) (reqId nurseId estado : String) :
    Option (ServiceRequest × List ServiceRequest) :=
  match rs with
  | [] => none
  | r :: rest =>
    if r._id == reqId && r.nurse_id == nurseId then
      let r' := { r with estado := estado }
      some (r', r' :: rest)
    else
      match findOneAndUpdateEstado rest reqId nurseId estado with
      | none => none
      | some (u, rest') => some (u, r :: rest')

/-- `PUT /service-requests/:id`: reject a status outside the enum with 400
before touching the store; otherwise find-and-update by
`(id, nurse_id == caller)`, answering 404 when absent and 200 with
`"Solicitud <estado> exitosamente"` plus the updated record on success. -/
def updateStatus (store : Store) (callerId reqId estado : String) :
    UpdateResult × Store :=
  if statusValues.contains estado then
    match findOneAndUpdateEstado store.requests reqId callerId estado with
    | none => (.notFound, store)
    | some (u, rest') =>
      (.ok ("Solicitud " ++ estado ++ " exitosamente") u, { store with requests := rest' })
  else
    (.invalidStatus, store)

/-! ## Service-requests router: detail (GET /:id) -/

/-- `GET /service-requests/:id`: the first request whose id matches and
where the caller is requester or nurse, populated; `none` yields 404. -/
def getRequest (store : Store) (userId reqId : String) : Option PopulatedRequest :=
  (store.requests.find? (fun r =>
      r._id == reqId && (r.user_id == userId || r.nurse_id == userId))).map
    (fun r => { request := r, patients := populatePatients store.patients r.patient_ids })

/-! ## Helper lemmas about the ownership check -/

/-- A member of `validPatients` is stored, listed among the supplied ids,
and owned by the caller. -/
theorem mem_validPatients {store : Store} {uid : String} {ids : List String} {p : Patient}
    (h : p ∈ validPatients store uid ids) :
    p ∈ store.patients ∧ p._id ∈ ids ∧ p.usuario_id = uid := by
  have h' := List.mem_filter.mp h
  have h2 := h'.2
  simp only [Bool.and_eq_true, beq_iff_eq] at h2
  exact ⟨h'.1, List.elem_iff.mp h2.1, h2.2⟩

/-- When the stored patient ids are pairwise distinct, so are the ids of
the matched-and-owned patients. -/
theorem validPatients_nodup_ids {store : Store} {uid : String} {ids : List String}
    (h : (store.patients.map Patient._id).Nodup) :
    ((validPatients store uid ids).map Patient._id).Nodup :=
  h.sublist ((List.filter_sublist store.patients).map Patient._id)

/-- If some supplied id is not the id of any caller-owned stored patient,
the match count falls strictly short of the supplied count. -/
theorem validPatients_length_lt {store : Store} {uid : String} {ids : List String}
    {x : String}
    (hnd : (store.patients.map Patient._id).Nodup)
    (hx : x ∈ ids)
    (hnot : ∀ p ∈ store.patients, p._id = x → p.usuario_id ≠ uid) :
    (validPatients store uid ids).length < ids.length := by
  have hmapnd : ((validPatients store uid ids).map Patient._id).Nodup :=
    validPatients_nodup_ids hnd
  have hsub : (validPatients store uid ids).map Patient._id ⊆ ids.erase x := by
    intro a ha
    rcases List.mem_map.mp ha with ⟨p, hp, rfl⟩
    obtain ⟨hps, hin, hown⟩ := mem_validPatients hp
    have hne : p._id ≠ x := fun he => hnot p hps he hown
    exact (List.mem_erase_of_ne hne).mpr hin
  have hle : ((validPatients store uid ids).map Patient._id).length ≤ (ids.erase x).length :=
    (List.subperm_of_subset hmapnd hsub).length_le
  have hpos : 0 < ids.length := List.length_pos_of_mem hx
  have herase : (ids.erase x).length = ids.length - 1 := List.length_erase_of_mem hx
  rw [List.length_map] at hle
  omega

/-- If the supplied id list has a duplicate, the distinct match count
falls strictly short of the raw list length. -/
theorem validPatients_length_lt_of_dup {store : Store} {uid : String} {ids : List String}
    (hnd : (store.patients.map Patient._id).Nodup)
    (hdup : ¬ ids.Nodup) :
    (validPatients store uid ids).length < ids.length := by
  have hmapnd : ((validPatients store uid ids).map Patient._id).Nodup :=
    validPatients_nodup_ids hnd
  have hsub : (validPatients store uid ids).map Patient._id ⊆ ids.dedup := by
    intro a ha
    rcases List.mem_map.mp ha with ⟨p, hp, rfl⟩
    exact List.mem_dedup.mpr (mem_validPatients hp).2.1
  have hle := (List.subperm_of_subset hmapnd hsub).length_le
  rw [List.length_map] at hle
  have hsubl : List.Sublist ids.dedup ids := List.dedup_sublist ids
  have hlt : ids.dedup.length < ids.length := by
    rcases Nat.lt_or_ge ids.dedup.length ids.length with h | h
    · exact h
    · exact absurd (List.dedup_eq_self.mp
        (hsubl.eq_of_length (Nat.le_antisymm hsubl.length_le h))) hdup
  omega

/-- C1: a service-request creation in which some supplied patient id does
not belong to a caller-owned patient answers 403 Forbidden and leaves the
store unchanged (no ServiceRequest is persisted). -/
theorem createServiceRequest_forbidden_of_unowned (store : Store) (uid : String)
    (body : CreateBody) (freshId : String) (x : String)
    (hnd : (store.patients.map Patient._id).Nodup)
    (hx : x ∈ body.patient_ids)
    (hnot : ∀ p ∈ store.patients, p._id = x → p.usuario_id ≠ uid) :
    createServiceRequest store uid body freshId = (.forbidden, store) := by
  have hlt := validPatients_length_lt hnd hx hnot
  unfold createServiceRequest
  rw [if_neg (Nat.ne_of_lt hlt)]

/-- Witness for C1: user userA supplies patient p1, which is owned by
userB; the attempt is denied and the store untouched. -/
theorem createServiceRequest_forbidden_of_unowned_witness :
    createServiceRequest
      { patients := [{ _id := "p1", name := "Ana", fecha_nacimiento := "1990-01-01",
                       genero := "F", descripcion := "d", usuario_id := "userB" }],
        requests := [] }
      "userA"
      { nurse_id := "n1", patient_ids := ["p1"], detalles := none,
        fecha := "2026-01-01", tarifa := 100 }
      "sr1"
      = (.forbidden,
         { patients := [{ _id := "p1", name := "Ana", fecha_nacimiento := "1990-01-01",
                          genero := "F", descripcion := "d", usuario_id := "userB" }],
           requests := [] }) :=
  createServiceRequest_forbidden_of_unowned _ _ _ _ "p1"
    (by decide) (by decide) (by decide)

/-- C9: a duplicated patient id in the supplied list makes the creation
fail with 403 Forbidden (distinct match count versus raw list length),
leaving the store unchanged. -/
theorem createServiceRequest_forbidden_of_dup (store : Store) (uid : String)
    (body : CreateBody) (freshId : String)
    (hnd : (store.patients.map Patient._id).Nodup)
    (hdup : ¬ body.patient_ids.Nodup) :
    createServiceRequest store uid body freshId = (.forbidden, store) := by
  have hlt := @validPatients_length_lt_of_dup store uid body.patient_ids hnd hdup
  unfold createServiceRequest
  rw [if_neg (Nat.ne_of_lt hlt)]

/-- Witness for C9: patient p1 is owned by the caller, yet supplying it
twice is denied. -/
theorem createServiceRequest_forbidden_of_dup_witness :
    createServiceRequest
      { patients := [{ _id := "p1", name := "Ana", fecha_nacimiento := "1990-01-01",
                       genero := "F", descripcion := "d", usuario_id := "userA" }],
        requests := [] }
      "userA"
      { nurse_id := "n1", patient_ids := ["p1", "p1"], detalles := none,
        fecha := "2026-01-01", tarifa := 100 }
      "sr1"
      = (.forbidden,
         { patients := [{ _id := "p1", name := "Ana", fecha_nacimiento := "1990-01-01",
                          genero := "F", descripcion := "d", usuario_id := "userA" }],
           requests := [] }) :=
  createServiceRequest_forbidden_of_dup _ _ _ _ (by decide) (by decide)

/-! ## Helper lemmas about find-and-update -/

/-- When no stored request matches both keys, the find-and-update misses. -/
theorem findOneAndUpdateEstado_eq_none {rs : List ServiceRequest}
    {reqId nurseId estado : String}
    (h : ∀ r ∈ rs, ¬(r._id = reqId ∧ r.nurse_id = nurseId)) :
    findOneAndUpdateEstado rs reqId nurseId estado = none := by
  induction rs with
  | nil => rfl
  | cons r rest ih =>
    have hcond : ¬ (r._id == reqId && r.nurse_id == nurseId) = true := by
      simp only [Bool.and_eq_true, beq_iff_eq]
      exact h r (List.mem_cons_self r rest)
    unfold findOneAndUpdateEstado
    rw [if_neg hcond, ih (fun r' hr' => h r' (List.mem_cons_of_mem r hr'))]

/-- When some stored request matches both keys, the find-and-update hits. -/
theorem findOneAndUpdateEstado_isSome {rs : List ServiceRequest}
    {reqId nurseId estado : String}
    (h : ∃ r ∈ rs, r._id = reqId ∧ r.nurse_id = nurseId) :
    (findOneAndUpdateEstado rs reqId nurseId estado).isSome = true := by
  induction rs with
  | nil => obtain ⟨r, hr, _⟩ := h; exact absurd hr (List.not_mem_nil r)
  | cons r rest ih =>
    unfold findOneAndUpdateEstado
    by_cases hc : (r._id == reqId && r.nurse_id == nurseId) = true
    · rw [if_pos hc]; rfl
    · rw [if_neg hc]
      obtain ⟨r0, hr0, hm⟩ := h
      rcases List.mem_cons.mp hr0 with rfl | hmem
      · refine absurd ?_ hc
        simp only [Bool.and_eq_true, beq_iff_eq]
        exact hm
      · have hrest := ih ⟨r0, hmem, hm⟩
        cases hrec : findOneAndUpdateEstado rest reqId nurseId estado with
        | none => rw [hrec] at hrest; exact absurd hrest (by simp)
        | some p => obtain ⟨u, rest'⟩ := p; rfl

/-- Characterisation of a successful find-and-update: the collection
splits around the first match, the match has both keys, everything before
it matches neither, exactly its estado changes, and the updated document
is what comes back. -/
theorem findOneAndUpdateEstado_eq_some {rs : List ServiceRequest}
    {reqId nurseId estado : String} {u : ServiceRequest} {rs' : List ServiceRequest}
    (h : findOneAndUpdateEstado rs reqId nurseId estado = some (u, rs')) :
    ∃ l1 r l2, rs = l1 ++ r :: l2 ∧
      r._id = reqId ∧ r.nurse_id = nurseId ∧
      (∀ r' ∈ l1, ¬(r'._id = reqId ∧ r'.nurse_id = nurseId)) ∧
      u = { r with estado := estado } ∧
      rs' = l1 ++ { r with estado := estado } :: l2 := by
  induction rs generalizing u rs' with
  | nil => exact absurd h (by simp [findOneAndUpdateEstado])
  | cons r rest ih =>
    by_cases hc : (r._id == reqId && r.nurse_id == nurseId) = true
    · unfold findOneAndUpdateEstado at h
      rw [if_pos hc] at h
      simp only [Option.some.injEq, Prod.mk.injEq] at h
      obtain ⟨hu, hrs⟩ := h
      have hc' := hc
      simp only [Bool.and_eq_true, beq_iff_eq] at hc'
      exact ⟨[], r, rest, rfl, hc'.1, hc'.2,
        fun r' hr' => absurd hr' (List.not_mem_nil r'),
        hu.symm, hrs.symm⟩
    · unfold findOneAndUpdateEstado at h
      rw [if_neg hc] at h
      cases hrec : findOneAndUpdateEstado rest reqId nurseId estado with
      | none => rw [hrec] at h; exact absurd h (by simp)
      | some p =>
        obtain ⟨u0, rest0⟩ := p
        rw [hrec] at h
        simp only [Option.some.injEq, Prod.mk.injEq] at h
        obtain ⟨hu, hrs⟩ := h
        obtain ⟨l1, rm, l2, hsplit, hid, hnurse, hnone, huu, hrest0⟩ := ih hrec
        simp only [Bool.and_eq_true, beq_iff_eq] at hc
        refine ⟨r :: l1, rm, l2, by rw [hsplit]; rfl, hid, hnurse, ?_, ?_, ?_⟩
        · intro r' hr'
          rcases List.mem_cons.mp hr' with rfl | hmem
          · exact hc
          · exact hnone r' hmem
        · rw [← hu, huu]
        · rw [← hrs, hrest0]; rfl

/-- C2: a caller who is not the assigned nurse of any request carrying the
given id never gets a success from the status update; with a status inside
the enum the outcome is 404 NotFound and the store is unchanged. -/
theorem updateStatus_notFound_of_wrong_nurse (store : Store) (uid reqId estado : String)
    (h : ∀ r ∈ store.requests, r._id = reqId → r.nurse_id ≠ uid) :
    (updateStatus store uid reqId estado).1.isOk = false ∧
    (estado ∈ statusValues → updateStatus store uid reqId estado = (.notFound, store)) := by
  have hnone : findOneAndUpdateEstado store.requests reqId uid estado = none :=
    findOneAndUpdateEstado_eq_none (fun r hr hand => h r hr hand.1 hand.2)
  unfold updateStatus
  by_cases hv : statusValues.contains estado = true
  · rw [if_pos hv, hnone]
    exact ⟨rfl, fun _ => rfl⟩
  · rw [if_neg hv]
    exact ⟨rfl, fun hm => absurd (List.elem_iff.mpr hm) hv⟩

/-- Witness for C2: request r1 exists and is assigned to nurse n1; caller
n2 with a valid status value gets 404 and changes nothing. -/
theorem updateStatus_notFound_of_wrong_nurse_witness :
    updateStatus
      { patients := [],
        requests := [{ _id := "r1", user_id := "u1", nurse_id := "n1",
                       patient_ids := ["p1"], estado := "pendiente", detalles := none,
                       fecha := "2026-01-01", tarifa := 100, pago_realizado := false,
                       pago_liberado := false, documentacion_servicio := none,
                       observaciones := none, recomendaciones := none }] }
      "n2" "r1" "aceptada"
      = (.notFound,
         { patients := [],
           requests := [{ _id := "r1", user_id := "u1", nurse_id := "n1",
                          patient_ids := ["p1"], estado := "pendiente", detalles := none,
                          fecha := "2026-01-01", tarifa := 100, pago_realizado := false,
                          pago_liberado := false, documentacion_servicio := none,
                          observaciones := none, recomendaciones := none }] }) :=
  (updateStatus_notFound_of_wrong_nurse _ _ _ _ (by decide)).2 (by decide)

/-- C3: a status outside the four-value enum is rejected with the 400
invalid-status outcome before any store write; any of the four values
passes validation (the outcome is never the invalid-status rejection), and
when a record matching (id, caller-as-nurse) exists the update succeeds
whatever the current status of that record. -/
theorem updateStatus_validation (store : Store) (uid reqId estado : String) :
    (estado ∉ statusValues → updateStatus store uid reqId estado = (.invalidStatus, store)) ∧
    (estado ∈ statusValues → (updateStatus store uid reqId estado).1 ≠ .invalidStatus) ∧
    (estado ∈ statusValues →
      (∃ r ∈ store.requests, r._id = reqId ∧ r.nurse_id = uid) →
      (updateStatus store uid reqId estado).1.isOk = true) := by
  unfold updateStatus
  refine ⟨fun hmem => ?_, fun hm => ?_, fun hm hex => ?_⟩
  · rw [if_neg (fun hc => hmem (List.elem_iff.mp hc))]
  · rw [if_pos (List.elem_iff.mpr hm)]
    cases hrec : findOneAndUpdateEstado store.requests reqId uid estado with
    | none => simp
    | some p => obtain ⟨u, rest'⟩ := p; simp
  · rw [if_pos (List.elem_iff.mpr hm)]
    have hsome := @findOneAndUpdateEstado_isSome store.requests reqId uid estado hex
    cases hrec : findOneAndUpdateEstado store.requests reqId uid estado with
    | none => rw [hrec] at hsome; exact absurd hsome (by simp)
    | some p => obtain ⟨u, rest'⟩ := p; rfl

/-- Witness for C3: the string xyz is rejected with 400 and no write,
while aceptada passes validation and, the caller being the assigned nurse
of r1, succeeds regardless of the current status pendiente. -/
theorem updateStatus_validation_witness :
    updateStatus
      { patients := [],
        requests := [{ _id := "r1", user_id := "u1", nurse_id := "n1",
                       patient_ids := ["p1"], estado := "pendiente", detalles := none,
                       fecha := "2026-01-01", tarifa := 100, pago_realizado := false,
                       pago_liberado := false, documentacion_servicio := none,
                       observaciones := none, recomendaciones := none }] }
      "n1" "r1" "xyz"
      = (.invalidStatus,
         { patients := [],
           requests := [{ _id := "r1", user_id := "u1", nurse_id := "n1",
                          patient_ids := ["p1"], estado := "pendiente", detalles := none,
                          fecha := "2026-01-01", tarifa := 100, pago_realizado := false,
                          pago_liberado := false, documentacion_servicio := none,
                          observaciones := none, recomendaciones := none }] }) ∧
    (updateStatus
      { patients := [],
        requests := [{ _id := "r1", user_id := "u1", nurse_id := "n1",
                       patient_ids := ["p1"], estado := "pendiente", detalles := none,
                       fecha := "2026-01-01", tarifa := 100, pago_realizado := false,
                       pago_liberado := false, documentacion_servicio := none,
                       observaciones := none, recomendaciones := none }] }
      "n1" "r1" "aceptada").1.isOk = true :=
  ⟨(updateStatus_validation _ _ _ _).1 (by decide),
   (updateStatus_validation _ _ _ _).2.2 (by decide) (by decide)⟩

/-- C5: a successful status update rewrites exactly the estado field of
the first record matching (id, caller-as-nurse), preserves all its other
fields and every other stored record and the whole patient collection, and
answers with the updated record plus a message naming the new status. -/
theorem updateStatus_ok_frame (store : Store) (uid reqId estado : String)
    (msg : String) (sr : ServiceRequest) (st' : Store)
    (h : updateStatus store uid reqId estado = (.ok msg sr, st')) :
    msg = "Solicitud " ++ estado ++ " exitosamente" ∧
    st'.patients = store.patients ∧
    ∃ l1 r l2, store.requests = l1 ++ r :: l2 ∧
      r._id = reqId ∧ r.nurse_id = uid ∧
      (∀ r' ∈ l1, ¬(r'._id = reqId ∧ r'.nurse_id = uid)) ∧
      st'.requests = l1 ++ sr :: l2 ∧
      sr._id = r._id ∧ sr.user_id = r.user_id ∧ sr.nurse_id = r.nurse_id ∧
      sr.patient_ids = r.patient_ids ∧ sr.estado = estado ∧
      sr.detalles = r.detalles ∧ sr.fecha = r.fecha ∧ sr.tarifa = r.tarifa ∧
      sr.pago_realizado = r.pago_realizado ∧ sr.pago_liberado = r.pago_liberado ∧
      sr.documentacion_servicio = r.documentacion_servicio ∧
      sr.observaciones = r.observaciones ∧ sr.recomendaciones = r.recomendaciones := by
  unfold updateStatus at h
  by_cases hv : statusValues.contains estado = true
  · rw [if_pos hv] at h
    cases hrec : findOneAndUpdateEstado store.requests reqId uid estado with
    | none => rw [hrec] at h; exact absurd h (by simp)
    | some p =>
      obtain ⟨u, rest'⟩ := p
      rw [hrec] at h
      simp only [Prod.mk.injEq, UpdateResult.ok.injEq] at h
      obtain ⟨⟨hmsg, hu⟩, hst⟩ := h
      subst hst
      obtain ⟨l1, r, l2, hsplit, hid, hnurse, hnone, huu, hrest'⟩ :=
        findOneAndUpdateEstado_eq_some hrec
      have hsr : sr = { r with estado := estado } := hu.symm.trans huu
      refine ⟨hmsg.symm, rfl, l1, r, l2, hsplit, hid, hnurse, hnone,
        ?_, ?_, ?_, ?_, ?_, ?_, ?_, ?_, ?_, ?_, ?_, ?_, ?_, ?_⟩
      · show rest' = l1 ++ sr :: l2
        rw [hrest', hsr]
      all_goals rw [hsr]
  · rw [if_neg hv] at h
    exact absurd h (by simp)

/-- Witness for C5: nurse n1 completes request r1; instantiating the
frame theorem at this successful update yields its conclusion, whose first
component names the new status in the confirmation message. -/
theorem updateStatus_ok_frame_witness :
    "Solicitud completada exitosamente" = "Solicitud " ++ "completada" ++ " exitosamente" :=
  (updateStatus_ok_frame
    { patients := [],
      requests := [{ _id := "r1", user_id := "u1", nurse_id := "n1",
                     patient_ids := ["p1"], estado := "pendiente", detalles := none,
                     fecha := "2026-01-01", tarifa := 100, pago_realizado := false,
                     pago_liberado := false, documentacion_servicio := none,
                     observaciones := none, recomendaciones := none }] }
    "n1" "r1" "completada"
    "Solicitud completada exitosamente"
    { _id := "r1", user_id := "u1", nurse_id := "n1",
      patient_ids := ["p1"], estado := "completada", detalles := none,
      fecha := "2026-01-01", tarifa := 100, pago_realizado := false,
      pago_liberado := false, documentacion_servicio := none,
      observaciones := none, recomendaciones := none }
    { patients := [],
      requests := [{ _id := "r1", user_id := "u1", nurse_id := "n1",
                     patient_ids := ["p1"], estado := "completada", detalles := none,
                     fecha := "2026-01-01", tarifa := 100, pago_realizado := false,
                     pago_liberado := false, documentacion_servicio := none,
                     observaciones := none, recomendaciones := none }] }
    rfl).1

/-- C4: the auth gate answers 401 Unauthorized when the bearer token is
missing (absent header, or no JS-truthy token after the split), 403
Forbidden when verification of a present token fails, and attaches the
decoded user id on success; the two failure outcomes are distinct. -/
theorem authenticateToken_outcomes (verify : String → Option String)
    (header : Option String) :
    ((tokenOf header = none ∨ tokenOf header = some "") →
      authenticateToken verify header = .unauthorized) ∧
    (∀ t, tokenOf header = some t → t ≠ "" → verify t = none →
      authenticateToken verify header = .forbidden) ∧
    (∀ t uid, tokenOf header = some t → t ≠ "" → verify t = some uid →
      authenticateToken verify header = .ok uid) ∧
    AuthResult.unauthorized ≠ AuthResult.forbidden := by
  refine ⟨fun h => ?_, fun t ht hne hv => ?_, fun t uid ht hne hv => ?_, by simp⟩
  · rcases h with h | h <;> simp [authenticateToken, h]
  · simp [authenticateToken, ht, hne, hv]
  · simp [authenticateToken, ht, hne, hv]

/-- Witness for C4: no header gives 401; a header whose token fails
verification gives 403; a verifiable token attaches its user id. -/
theorem authenticateToken_outcomes_witness :
    authenticateToken (fun _ => none) none = .unauthorized ∧
    authenticateToken (fun _ => none) (some "Bearer bad") = .forbidden ∧
    authenticateToken (fun t => if t = "good" then some "user1" else none)
      (some "Bearer good") = .ok "user1" :=
  ⟨(authenticateToken_outcomes (fun _ => none) none).1 (Or.inl rfl),
   (authenticateToken_outcomes (fun _ => none) (some "Bearer bad")).2.1
     "bad" (by decide) (by decide) rfl,
   (authenticateToken_outcomes (fun t => if t = "good" then some "user1" else none)
     (some "Bearer good")).2.2.1 "good" "user1" (by decide) (by decide) (by decide)⟩

/-- C6: a successful service-request creation persists the record with
estado defaulted to pendiente and both payment flags false, carries over
the caller id and the body fields, appends exactly that record to the
store, and answers 201 with the full record including its store id. -/
theorem createServiceRequest_created_defaults (store : Store) (uid : String)
    (body : CreateBody) (freshId : String) (sr : ServiceRequest) (st' : Store)
    (h : createServiceRequest store uid body freshId = (.created sr, st')) :
    sr.estado = "pendiente" ∧ sr.pago_realizado = false ∧ sr.pago_liberado = false ∧
    sr._id = freshId ∧ sr.user_id = uid ∧ sr.nurse_id = body.nurse_id ∧
    sr.patient_ids = body.patient_ids ∧ sr.detalles = body.detalles ∧
    sr.fecha = body.fecha ∧ sr.tarifa = body.tarifa ∧
    st'.patients = store.patients ∧ st'.requests = store.requests ++ [sr] := by
  unfold createServiceRequest at h
  by_cases hc :
      (validPatients store uid body.patient_ids).length = body.patient_ids.length
  · rw [if_pos hc] at h
    simp only [Prod.mk.injEq, CreateResult.created.injEq] at h
    obtain ⟨hsr, hst⟩ := h
    subst hst
    subst hsr
    exact ⟨rfl, rfl, rfl, rfl, rfl, rfl, rfl, rfl, rfl, rfl, rfl, rfl⟩
  · rw [if_neg hc] at h
    exact absurd h (by simp)

/-- Witness for C6: userA books nurse n1 for their own patient p1; the
first component of the instantiated conclusion shows the persisted status is
pendiente. -/
theorem createServiceRequest_created_defaults_witness :
    ServiceRequest.estado
      { _id := "sr1", user_id := "userA", nurse_id := "n1", patient_ids := ["p1"],
        estado := "pendiente", detalles := none, fecha := "2026-01-01", tarifa := 100,
        pago_realizado := false, pago_liberado := false, documentacion_servicio := none,
        observaciones := none, recomendaciones := none } = "pendiente" :=
  (createServiceRequest_created_defaults
    { patients := [{ _id := "p1", name := "Ana", fecha_nacimiento := "1990-01-01",
                     genero := "F", descripcion := "d", usuario_id := "userA" }],
      requests := [] }
    "userA"
    { nurse_id := "n1", patient_ids := ["p1"], detalles := none,
      fecha := "2026-01-01", tarifa := 100 }
    "sr1"
    { _id := "sr1", user_id := "userA", nurse_id := "n1", patient_ids := ["p1"],
      estado := "pendiente", detalles := none, fecha := "2026-01-01", tarifa := 100,
      pago_realizado := false, pago_liberado := false, documentacion_servicio := none,
      observaciones := none, recomendaciones := none }
    { patients := [{ _id := "p1", name := "Ana", fecha_nacimiento := "1990-01-01",
                     genero := "F", descripcion := "d", usuario_id := "userA" }],
      requests := [{ _id := "sr1", user_id := "userA", nurse_id := "n1",
                     patient_ids := ["p1"], estado := "pendiente", detalles := none,
                     fecha := "2026-01-01", tarifa := 100, pago_realizado := false,
                     pago_liberado := false, documentacion_servicio := none,
                     observaciones := none, recomendaciones := none }] }
    rfl).1

/-! ## Helper lemmas about pagination -/

/-- A non-zero Mongo limit returns at most its absolute value. -/
theorem length_mongoLimit_le {α : Type} {n : Int} (hn : n ≠ 0) (l : List α) :
    (mongoLimit n l).length ≤ n.natAbs := by
  unfold mongoLimit
  rw [if_neg hn]
  exact List.length_take_le _ _

/-- Every document a Mongo limit returns comes from the cursor. -/
theorem mem_of_mem_mongoLimit {α : Type} {n : Int} {l : List α} {a : α}
    (h : a ∈ mongoLimit n l) : a ∈ l := by
  unfold mongoLimit at h
  split at h
  · exact h
  · exact List.mem_of_mem_take h

/-- A non-negative skip makes the patients-list call answer 200. -/
theorem listPatients_isSome (store : Store) (uid : String)
    {pageQ limitQ : Option Int}
    (hskip : ¬((pageQ.getD 1 - 1) * limitQ.getD 10 < 0)) :
    (listPatients store uid pageQ limitQ).isSome = true := by
  simp only [listPatients]
  rw [if_neg hskip]
  rfl

/-- A non-negative skip makes the requests-list call answer 200. -/
theorem listRequests_isSome (store : Store) (uid : String) (estado : Option String)
    {pageQ limitQ : Option Int}
    (hskip : ¬((pageQ.getD 1 - 1) * limitQ.getD 10 < 0)) :
    (listRequests store uid estado pageQ limitQ).isSome = true := by
  simp only [listRequests]
  rw [if_neg hskip]
  rfl

/-- A patients-list 200 carries the total of all caller-owned patients,
echoes page and limit, and pages the stripped owned records through skip
and the Mongo limit. -/
theorem listPatients_eq_some {store : Store} {uid : String}
    {pageQ limitQ : Option Int} {resp : PatientsListResponse}
    (h : listPatients store uid pageQ limitQ = some resp) :
    resp.total = (store.patients.filter (fun p => p.usuario_id == uid)).length ∧
    resp.page = pageQ.getD 1 ∧ resp.limit = limitQ.getD 10 ∧
    resp.patients
      = (mongoLimit (limitQ.getD 10)
          ((store.patients.filter (fun p => p.usuario_id == uid)).drop
            (((pageQ.getD 1 - 1) * limitQ.getD 10).toNat))).map stripId := by
  simp only [listPatients] at h
  by_cases hskip : (pageQ.getD 1 - 1) * limitQ.getD 10 < 0
  · rw [if_pos hskip] at h
    exact absurd h (by simp)
  · rw [if_neg hskip] at h
    simp only [Option.some.injEq] at h
    subst h
    exact ⟨rfl, rfl, rfl, rfl⟩

/-- A requests-list 200 carries the total of all matching requests,
echoes page and limit, and pages the populated matches through skip and
the Mongo limit. -/
theorem listRequests_eq_some {store : Store} {uid : String} {estado : Option String}
    {pageQ limitQ : Option Int} {resp : RequestsListResponse}
    (h : listRequests store uid estado pageQ limitQ = some resp) :
    resp.total = (store.requests.filter (requestFilter uid estado)).length ∧
    resp.page = pageQ.getD 1 ∧ resp.limit = limitQ.getD 10 ∧
    resp.requests
      = (mongoLimit (limitQ.getD 10)
          ((store.requests.filter (requestFilter uid estado)).drop
            (((pageQ.getD 1 - 1) * limitQ.getD 10).toNat))).map
          (fun r => { request := r
                      patients := populatePatients store.patients r.patient_ids }) := by
  simp only [listRequests] at h
  by_cases hskip : (pageQ.getD 1 - 1) * limitQ.getD 10 < 0
  · rw [if_pos hskip] at h
    exact absurd h (by simp)
  · rw [if_neg hskip] at h
    simp only [Option.some.injEq] at h
    subst h
    exact ⟨rfl, rfl, rfl, rfl⟩

/-- C7 counterexample: at limit = 0 Mongo applies no limit, so a caller
with two patients gets both records back and the returned item count
exceeds the supplied limit, refuting the unrestricted bound. -/
theorem pagination_not_bounded_at_limit_zero :
    ∃ resp, listPatients
      { patients := [{ _id := "p1", name := "Ana", fecha_nacimiento := "1990-01-01",
                       genero := "F", descripcion := "d", usuario_id := "userA" },
                     { _id := "p2", name := "Bo", fecha_nacimiento := "1991-01-01",
                       genero := "M", descripcion := "d", usuario_id := "userA" }],
        requests := [] }
      "userA" (some 1) (some 0) = some resp ∧
      ¬((resp.patients.length : Int) ≤ (some (0 : Int)).getD 10) :=
  ⟨{ total := 2, page := 1, limit := 0,
     patients := [{ name := "Ana", fecha_nacimiento := "1990-01-01",
                    genero := "F", descripcion := "d", usuario_id := "userA" },
                  { name := "Bo", fecha_nacimiento := "1991-01-01",
                    genero := "M", descripcion := "d", usuario_id := "userA" }] },
   by decide, by decide⟩

/-- C7 (amended): for a positive page and a positive limit both list
calls succeed, the returned page has at most limit items, the total
equals the full count of the matching records of the caller (status
filter included for service requests) and does not depend on page or
limit, and page and limit, defaulted to 1 and 10, are echoed in the
response. (At limit = 0 Mongo applies no limit, and a page below 1 makes
the skip negative, which the routes surface as a 500.) -/
theorem pagination_bounded_total (store : Store) (uid : String)
    (estado : Option String) (pageQ limitQ : Option Int)
    (hP : 1 ≤ pageQ.getD 1) (hL : 1 ≤ limitQ.getD 10) :
    ∃ presp rresp,
      listPatients store uid pageQ limitQ = some presp ∧
      listRequests store uid estado pageQ limitQ = some rresp ∧
      (presp.patients.length : Int) ≤ limitQ.getD 10 ∧
      presp.total = (store.patients.filter (fun p => p.usuario_id == uid)).length ∧
      presp.page = pageQ.getD 1 ∧ presp.limit = limitQ.getD 10 ∧
      (rresp.requests.length : Int) ≤ limitQ.getD 10 ∧
      rresp.total = (store.requests.filter (requestFilter uid estado)).length ∧
      rresp.page = pageQ.getD 1 ∧ rresp.limit = limitQ.getD 10 := by
  have hskip : ¬((pageQ.getD 1 - 1) * limitQ.getD 10 < 0) := by
    have h0 : 0 ≤ (pageQ.getD 1 - 1) * limitQ.getD 10 :=
      mul_nonneg (by omega) (by omega)
    omega
  have hLne : limitQ.getD 10 ≠ 0 := by omega
  obtain ⟨presp, hp⟩ :=
    Option.isSome_iff_exists.mp (listPatients_isSome store uid hskip)
  obtain ⟨rresp, hr⟩ :=
    Option.isSome_iff_exists.mp (listRequests_isSome store uid estado hskip)
  obtain ⟨hpt, hpp, hpl, hppat⟩ := listPatients_eq_some hp
  obtain ⟨hrt, hrp, hrl, hrreq⟩ := listRequests_eq_some hr
  have hplen : presp.patients.length ≤ (limitQ.getD 10).natAbs := by
    rw [hppat, List.length_map]
    exact length_mongoLimit_le hLne _
  have hrlen : rresp.requests.length ≤ (limitQ.getD 10).natAbs := by
    rw [hrreq, List.length_map]
    exact length_mongoLimit_le hLne _
  exact ⟨presp, rresp, hp, hr, by omega, hpt, hpp, hpl, by omega, hrt, hrp, hrl⟩

/-- Witness for C7: the amended theorem at a one-patient store with the
default page 1 and limit 10. -/
theorem pagination_bounded_total_witness :
    ∃ presp rresp,
      listPatients
        (Store.mk [{ _id := "p1", name := "Ana", fecha_nacimiento := "1990-01-01",
                     genero := "F", descripcion := "d", usuario_id := "userA" }] [])
        "userA" none none = some presp ∧
      listRequests
        (Store.mk [{ _id := "p1", name := "Ana", fecha_nacimiento := "1990-01-01",
                     genero := "F", descripcion := "d", usuario_id := "userA" }] [])
        "userA" none none none = some rresp ∧
      (presp.patients.length : Int) ≤ (none : Option Int).getD 10 ∧
      presp.total
        = ((Store.mk [{ _id := "p1", name := "Ana", fecha_nacimiento := "1990-01-01",
                        genero := "F", descripcion := "d",
                        usuario_id := "userA" }] []).patients.filter
            (fun p => p.usuario_id == "userA")).length ∧
      presp.page = (none : Option Int).getD 1 ∧
      presp.limit = (none : Option Int).getD 10 ∧
      (rresp.requests.length : Int) ≤ (none : Option Int).getD 10 ∧
      rresp.total
        = ((Store.mk [{ _id := "p1", name := "Ana", fecha_nacimiento := "1990-01-01",
                        genero := "F", descripcion := "d",
                        usuario_id := "userA" }] []).requests.filter
            (requestFilter "userA" none)).length ∧
      rresp.page = (none : Option Int).getD 1 ∧
      rresp.limit = (none : Option Int).getD 10 :=
  pagination_bounded_total
    (Store.mk [{ _id := "p1", name := "Ana", fecha_nacimiento := "1990-01-01",
                 genero := "F", descripcion := "d", usuario_id := "userA" }] [])
    "userA" none none none (by decide) (by decide)

/-- C8: patient creation stamps the stored record with the id of the caller
regardless of any client-supplied owner id, answers with the created
record stripped of its store id, and every entry of a patient-list 200
is likewise a stripped record of a stored caller-owned patient. -/
theorem createPatient_stamped_and_stripped (store : Store) (uid : String)
    (body : PatientBody) (freshId : String) (pageQ limitQ : Option Int) :
    (createPatient store uid body freshId).2.patients
      = store.patients ++
        [{ _id := freshId, name := body.name, fecha_nacimiento := body.fecha_nacimiento,
           genero := body.genero, descripcion := body.descripcion, usuario_id := uid }] ∧
    (createPatient store uid body freshId).1
      = stripId { _id := freshId, name := body.name,
                  fecha_nacimiento := body.fecha_nacimiento, genero := body.genero,
                  descripcion := body.descripcion, usuario_id := uid } ∧
    (∀ resp, listPatients store uid pageQ limitQ = some resp →
      ∀ d ∈ resp.patients,
        ∃ q, q ∈ store.patients ∧ q.usuario_id = uid ∧ d = stripId q) := by
  refine ⟨rfl, rfl, ?_⟩
  intro resp hresp d hd
  obtain ⟨-, -, -, hpat⟩ := listPatients_eq_some hresp
  rw [hpat] at hd
  simp only [List.mem_map] at hd
  obtain ⟨q, hq, rfl⟩ := hd
  have hq1 : q ∈ store.patients.filter (fun p => p.usuario_id == uid) :=
    List.mem_of_mem_drop (mem_of_mem_mongoLimit hq)
  have hq2 := List.mem_filter.mp hq1
  exact ⟨q, hq2.1, by simpa using hq2.2, rfl⟩

/-- Witness for C8: creating Ana as userA with a client-supplied foreign
owner id still stamps userA, and the response equals the stripped record. -/
theorem createPatient_stamped_and_stripped_witness :
    (createPatient { patients := [], requests := [] } "userA"
      { name := "Ana", fecha_nacimiento := "1990-01-01", genero := "F",
        descripcion := "d", usuario_id := some "userB" } "p9").1
      = stripId { _id := "p9", name := "Ana", fecha_nacimiento := "1990-01-01",
                  genero := "F", descripcion := "d", usuario_id := "userA" } :=
  (createPatient_stamped_and_stripped { patients := [], requests := [] } "userA"
    { name := "Ana", fecha_nacimiento := "1990-01-01", genero := "F",
      descripcion := "d", usuario_id := some "userB" } "p9" none none).2.1

/-- C10: the estado query value is never validated against the enum: any
non-empty string is applied as an exact-match filter over the requests of
the caller (a 200 reports the total of exactly the records carrying it,
every returned entry carries it, and an unmatched value yields total 0
with an empty page), the estado value never turns a success into a
failure or back (no rejection path depends on it), and an absent or
empty estado applies no status filter at all. -/
theorem listRequests_estado_unvalidated (store : Store) (uid : String)
    (pageQ limitQ : Option Int) (s : String) (hs : s ≠ "") :
    (∀ resp, listRequests store uid (some s) pageQ limitQ = some resp →
      resp.total
        = (store.requests.filter
            (fun r => (r.user_id == uid || r.nurse_id == uid) && r.estado == s)).length ∧
      (∀ pr ∈ resp.requests, pr.request.estado = s) ∧
      ((∀ r ∈ store.requests, r.estado ≠ s) →
        resp.total = 0 ∧ resp.requests = [])) ∧
    (listRequests store uid (some s) pageQ limitQ).isSome
      = (listRequests store uid none pageQ limitQ).isSome ∧
    listRequests store uid none pageQ limitQ
      = listRequests store uid (some "") pageQ limitQ ∧
    (∀ resp, listRequests store uid none pageQ limitQ = some resp →
      resp.total
        = (store.requests.filter
            (fun r => r.user_id == uid || r.nurse_id == uid)).length) := by
  have hpred : ∀ r : ServiceRequest,
      requestFilter uid (some s) r
        = ((r.user_id == uid || r.nurse_id == uid) && r.estado == s) := by
    intro r
    simp [requestFilter, hs]
  have hrole : ∀ r : ServiceRequest,
      requestFilter uid none r = (r.user_id == uid || r.nurse_id == uid) := by
    intro r
    simp [requestFilter]
  refine ⟨fun resp hresp => ?_, ?_, ?_, fun resp hresp => ?_⟩
  · obtain ⟨ht, -, -, hreq⟩ := listRequests_eq_some hresp
    refine ⟨?_, ?_, fun hnone => ?_⟩
    · rw [ht, funext hpred]
    · intro pr hpr
      rw [hreq] at hpr
      simp only [List.mem_map] at hpr
      obtain ⟨r, hr, rfl⟩ := hpr
      have hr1 : r ∈ store.requests.filter (requestFilter uid (some s)) :=
        List.mem_of_mem_drop (mem_of_mem_mongoLimit hr)
      have hr2 := (List.mem_filter.mp hr1).2
      rw [hpred] at hr2
      have hand := (Bool.and_eq_true _ _).mp hr2
      exact beq_iff_eq.mp hand.2
    · have hfil : store.requests.filter (requestFilter uid (some s)) = [] := by
        refine List.filter_eq_nil_iff.mpr ?_
        intro r hr
        rw [hpred]
        simp only [Bool.and_eq_true, beq_iff_eq, not_and]
        exact fun _ => hnone r hr
      constructor
      · rw [ht, hfil]
        rfl
      · rw [hreq, hfil]
        simp [mongoLimit]
  · simp only [listRequests]
    by_cases hskip : (pageQ.getD 1 - 1) * limitQ.getD 10 < 0
    · rw [if_pos hskip, if_pos hskip]
    · rw [if_neg hskip, if_neg hskip]
      rfl
  · have hempty : requestFilter uid none = requestFilter uid (some "") := by
      funext r
      simp [requestFilter]
    simp only [listRequests, hempty]
  · obtain ⟨ht, -, -, -⟩ := listRequests_eq_some hresp
    rw [ht, funext hrole]

/-- Witness for C10: with one pendiente request of u1 on store, the
unknown status string foo is accepted and filters everything out: the 200
response has total 0 and an empty page. -/
theorem listRequests_estado_unvalidated_witness :
    ({ total := 0, page := 1, limit := 10,
       requests := [] } : RequestsListResponse).total = 0 ∧
    ({ total := 0, page := 1, limit := 10,
       requests := [] } : RequestsListResponse).requests = [] :=
  (((listRequests_estado_unvalidated
    { patients := [],
      requests := [{ _id := "r1", user_id := "u1", nurse_id := "n1",
                     patient_ids := ["p1"], estado := "pendiente", detalles := none,
                     fecha := "2026-01-01", tarifa := 100, pago_realizado := false,
                     pago_liberado := false, documentacion_servicio := none,
                     observaciones := none, recomendaciones := none }] }
    "u1" none none "foo" (by decide)).1
    { total := 0, page := 1, limit := 10, requests := [] }
    (by decide)).2.2 (by decide))

end NursingAPI
